/-
Verification of the options-alpha-toolkit core: the alpha scoring engine
(`calculate_results`) and the Monte Carlo path simulator (`run_simulation`)
from `quant_options_alpha_analyzer.py` (the identical refactored copies live
in `options_alpha/ui/tabs/analyzer_tab.py` and
`options_alpha/ui/tabs/simulation_tab.py`).

Modelling conventions:
* Python floats are modelled as exact rationals (ℚ).  The source's arithmetic
  is IEEE double precision; the spec states its numeric identities as exact
  equalities, which is what we verify over ℚ.
* `np.sqrt(252)` is irrational, so it is abstracted as an explicit parameter
  `s : ℚ` wherever it occurs (`rv = (atr/underlying) * s`,
  `daily_vol = volatility / s`).  Every claim below holds for all values of
  this parameter, so nothing is lost by the abstraction.
* The contract dict `option_data` is modelled as a structure whose eleven
  input fields mirror the §3 data model; the mutable `"rv"` display entry
  written by `calculate_results` is modelled as an `Option ℚ` field
  (`none` = key absent).
* The global `np.random.normal()` stream is modelled as an explicit function
  `draws : ℕ → ℚ`; the simulator consumes draws sequentially (two per
  simulated day: index `base` for the price move, `base+1` for the IV shock).
-/
import Mathlib

namespace OptionsAlpha

/-- The `option_data` record: the eleven §3 input fields, plus the mutable
`"rv"` dict entry (`none` when the key is absent) that
`calculate_results` writes for display. -/
structure ContractData where
  strike : ℚ
  delta : ℚ
  gamma : ℚ
  theta : ℚ
  vega : ℚ
  bid : ℚ
  ask : ℚ
  slippage : ℚ
  underlying : ℚ
  atr : ℚ
  iv : ℚ
  rv : Option ℚ
  deriving Repr, DecidableEq

/-- Realized volatility as computed at
`quant_options_alpha_analyzer.py:419`:
`rv = (atr / underlying) * np.sqrt(252) if underlying > 0 else 0`.
`s` stands for `np.sqrt(252)`. -/
def rvValue (s : ℚ) (c : ContractData) : ℚ :=
  if 0 < c.underlying then c.atr / c.underlying * s else 0

/-- The scoring engine `calculate_results(option_data)`
(`quant_options_alpha_analyzer.py:402-461`).  `idx` is
`equation_selector.currentIndex()` (0 = SAS, 1 = RA-SAS, 2 = TAS,
anything else = Expected Return).  Returns the updated record (the function
stores `option_data["rv"] = rv * 100` before branching), the formula label
and the numeric result. -/
def calculate_results (s : ℚ) (idx : ℕ) (c : ContractData) :
    ContractData × String × ℚ :=
  let theta := |c.theta|
  let iv := c.iv / 100
  let spread := c.ask - c.bid
  let rv := rvValue s c
  let c' := { c with rv := some (rv * 100) }
  if idx = 0 then
    (c', "SAS", if 0 < theta then c.delta * c.gamma / theta else 0)
  else if idx = 1 then
    let denominator := theta + spread + c.slippage
    (c', "RA-SAS",
      if 0 < denominator then c.delta * c.gamma / denominator else 0)
  else if idx = 2 then
    let sas := if 0 < theta then c.delta * c.gamma / theta else 0
    (c', "TAS", sas + (rv - iv) * c.vega)
  else
    let denominator := theta + spread + c.slippage
    let ra_sas :=
      if 0 < denominator then c.delta * c.gamma / denominator else 0
    (c', "Expected Return", ra_sas + (rv - iv) * c.vega)

/-- The numeric score alone. -/
def scoreValue (s : ℚ) (idx : ℕ) (c : ContractData) : ℚ :=
  (calculate_results s idx c).2.2

/-- The spec's §8 concrete contract:
strike 100, delta 0.50, gamma 0.052, theta −0.070, vega 0.085, bid 4.90,
ask 5.10, iv 31.0, underlying 100, atr 2.5, slippage 0.02 (no `"rv"` entry
yet). -/
def exampleContract : ContractData :=
  { strike := 100
    delta := 1/2
    gamma := 52/1000
    theta := -70/1000
    vega := 85/1000
    bid := 49/10
    ask := 51/10
    slippage := 2/100
    underlying := 100
    atr := 5/2
    iv := 31
    rv := none }

/-- A malformed-quote contract (crossed market, zero theta and slippage):
its RA-SAS denominator `|θ| + spread + slippage = 0 + (4 − 5) + 0 = −1` is
non-positive. -/
def degenerateContract : ContractData :=
  { exampleContract with theta := 0, bid := 5, ask := 4, slippage := 0 }

/-- The §8 contract with `theta = 0`: with all-zero draws its option value
never moves, so every path exits exactly at the mid-price. -/
def breakEvenContract : ContractData :=
  { exampleContract with theta := 0 }

/-! ## Price-path simulator (`run_simulation`,
`quant_options_alpha_analyzer.py:939-1146`) -/

/-- `np.sign` on rationals: 1 for positive, −1 for negative, 0 at 0. -/
def pysign (x : ℚ) : ℚ := if 0 < x then 1 else if x < 0 then -1 else 0

/-- The simulation parameters read at
`quant_options_alpha_analyzer.py:947-951`.  `volatility` is already divided
by 100 there. -/
structure SimConfig where
  numSims : ℕ
  stockPrice : ℚ
  volatility : ℚ
  holdingPeriod : ℕ
  useRealistic : Bool
  deriving Repr, DecidableEq

/-- The mutable state of the nested simulation loops: `current_price`,
`option_value`, the per-path signed contribution accumulators
`this_*_contrib`, and the per-contract unsigned accumulators `*_contrib`
(which live across paths). -/
structure LoopState where
  price : ℚ
  optionValue : ℚ
  sD : ℚ
  sG : ℚ
  sT : ℚ
  sV : ℚ
  uD : ℚ
  uG : ℚ
  uT : ℚ
  uV : ℚ
  deriving Repr, DecidableEq

/-- One iteration of the day loop
(`quant_options_alpha_analyzer.py:1024-1057`): `z` is the price draw
`np.random.normal()` and `zp` the IV draw.  `dailyVol` is
`volatility / np.sqrt(252)`. -/
def dayStep (c : ContractData) (dailyVol z zp : ℚ) (st : LoopState) :
    LoopState :=
  let priceChange := st.price * dailyVol * z
  let newPrice := st.price + priceChange
  let deltaChange := c.delta * priceChange
  let gammaChange := 1/2 * c.gamma * priceChange ^ 2
  let thetaChange := c.theta / 252
  let ivChange := 1/100 * zp - 5/1000 * pysign priceChange
  let vegaChange := c.vega * ivChange * 100
  { price := newPrice
    optionValue :=
      st.optionValue + (deltaChange + gammaChange + thetaChange + vegaChange)
    sD := st.sD + deltaChange
    sG := st.sG + gammaChange
    sT := st.sT + thetaChange
    sV := st.sV + vegaChange
    uD := st.uD + |deltaChange|
    uG := st.uG + |gammaChange|
    uT := st.uT + |thetaChange|
    uV := st.uV + |vegaChange| }

/-- The day loop `for day in range(holding_period)`.  The global
`np.random.normal()` stream is `draws`; the day starting with stream
position `base` consumes `draws base` (price move) and `draws (base+1)`
(IV shock), matching the sequential order of the two calls in the source. -/
def runDays (c : ContractData) (dailyVol : ℚ) (draws : ℕ → ℚ) :
    ℕ → ℕ → LoopState → LoopState
  | _, 0, st => st
  | base, days+1, st =>
      runDays c dailyVol draws (base + 2) days
        (dayStep c dailyVol (draws base) (draws (base + 1)) st)

/-- One simulated holding period: `sim_return` plus this path's signed
Greek-contribution sums (`detailed_data` entries,
`quant_options_alpha_analyzer.py:1074-1079`). -/
structure PathSample where
  totalReturn : ℚ
  deltaContribution : ℚ
  gammaContribution : ℚ
  thetaContribution : ℚ
  vegaContribution : ℚ
  deriving Repr, DecidableEq

/-- The per-contract unsigned factor-contribution accumulators
(`delta_contrib` … `vega_contrib`). -/
structure FactorTotals where
  uDelta : ℚ
  uGamma : ℚ
  uTheta : ℚ
  uVega : ℚ
  deriving Repr, DecidableEq

/-- `initial_value = (bid + ask) / 2` (mid-price). -/
def initialValue (c : ContractData) : ℚ := (c.bid + c.ask) / 2

/-- The state at the start of one path
(`quant_options_alpha_analyzer.py:1013-1021`): price re-anchored to the
config's stock price, option value at the mid-price, signed accumulators
reset, unsigned accumulators carried over. -/
def pathInit (c : ContractData) (cfg : SimConfig) (u : FactorTotals) :
    LoopState :=
  { price := cfg.stockPrice
    optionValue := initialValue c
    sD := 0, sG := 0, sT := 0, sV := 0
    uD := u.uDelta, uG := u.uGamma, uT := u.uTheta, uV := u.uVega }

/-- One iteration of the path loop body
(`quant_options_alpha_analyzer.py:1013-1079`): run the day loop, apply the
realistic-execution exit adjustment (slippage subtracted when closing in
profit — strict `option_value > initial_value` — added otherwise), and emit
the PathSample.  `s` stands for `np.sqrt(252)`. -/
def runPath (c : ContractData) (cfg : SimConfig) (s : ℚ) (draws : ℕ → ℚ)
    (base : ℕ) (u : FactorTotals) : FactorTotals × PathSample :=
  let iv0 := initialValue c
  let st := runDays c (cfg.volatility / s) draws base cfg.holdingPeriod
    (pathInit c cfg u)
  let exitPrice :=
    if cfg.useRealistic then
      if iv0 < st.optionValue then st.optionValue - c.slippage
      else st.optionValue + c.slippage
    else st.optionValue
  (⟨st.uD, st.uG, st.uT, st.uV⟩,
   ⟨exitPrice - iv0, st.sD, st.sG, st.sT, st.sV⟩)

/-- The path loop `for sim_idx in range(num_sims)` for one contract, for a
run that is never cancelled.  Returns the final unsigned accumulators and
the ordered list of PathSamples; path `p` starts at stream position
`base + 2*holdingPeriod*p`. -/
def runSims (c : ContractData) (cfg : SimConfig) (s : ℚ) (draws : ℕ → ℚ) :
    ℕ → ℕ → FactorTotals → FactorTotals × List PathSample
  | _, 0, u => (u, [])
  | base, n+1, u =>
      let r := runPath c cfg s draws base u
      let rest := runSims c cfg s draws (base + 2 * cfg.holdingPeriod) n r.1
      (rest.1, r.2 :: rest.2)

/-- The whole simulation of one contract: `pathCount` paths starting at
stream position 0 with zeroed unsigned accumulators. -/
def simulateContract (c : ContractData) (cfg : SimConfig) (s : ℚ)
    (draws : ℕ → ℚ) : FactorTotals × List PathSample :=
  runSims c cfg s draws 0 cfg.numSims ⟨0, 0, 0, 0⟩

/-- `if sim_return > 0: win_count += 1`
(`quant_options_alpha_analyzer.py:1082`). -/
def isWin (p : PathSample) : Bool := decide (0 < p.totalReturn)

/-! ## Result aggregation (`quant_options_alpha_analyzer.py:1093-1130`) -/

/-- The four Greeks, in the insertion order of the `factors` dict
(`quant_options_alpha_analyzer.py:1100-1105`). -/
inductive Greek
  | Delta
  | Gamma
  | Theta
  | Vega
  deriving Repr, DecidableEq

/-- One step of Python's `max(..., key=...)`: the running best is replaced
only when the new key is strictly greater, so the first maximum wins. -/
def pymaxStep (best x : Greek × ℚ) : Greek × ℚ :=
  if best.2 < x.2 then x else best

/-- `primary_factor = max(factors, key=factors.get)` over the dict
`{Delta: d, Gamma: g, Theta: t, Vega: v}` in insertion order. -/
def primary_factor (d g t v : ℚ) : Greek :=
  (pymaxStep (pymaxStep (pymaxStep (Greek.Delta, d) (Greek.Gamma, g))
    (Greek.Theta, t)) (Greek.Vega, v)).1

/-- The per-contract entry appended to `sim_results`
(`quant_options_alpha_analyzer.py:1116-1130`); `best_case` is omitted (no
claim concerns it). -/
structure SimSummary where
  initialScore : ℚ
  avgReturn : ℚ
  avgReturnPct : ℚ
  winRate : ℚ
  primaryFactor : Greek
  totals : FactorTotals
  deriving Repr, DecidableEq

/-- Aggregation of one contract's simulation
(`quant_options_alpha_analyzer.py:1093-1130`):
`avg_return = sum(returns) / num_sims`,
`win_rate = (win_count / num_sims) * 100`,
`avg_return_pct = (avg_return / initial_value) * 100 if initial_value > 0
else 0`, `primary_factor = max(factors, key=factors.get)`, and
`initial_score` from `calculate_results` under the currently selected
formula `idx`. -/
def run_simulation (c : ContractData) (cfg : SimConfig) (s : ℚ)
    (draws : ℕ → ℚ) (idx : ℕ) : SimSummary :=
  let r := simulateContract c cfg s draws
  let returns := r.2.map PathSample.totalReturn
  let avgReturn := returns.sum / (cfg.numSims : ℚ)
  let winCount := (r.2.filter isWin).length
  { initialScore := scoreValue s idx c
    avgReturn := avgReturn
    avgReturnPct :=
      if 0 < initialValue c then avgReturn / initialValue c * 100 else 0
    winRate := (winCount : ℚ) / (cfg.numSims : ℚ) * 100
    primaryFactor := primary_factor r.1.uDelta r.1.uGamma r.1.uTheta r.1.uVega
    totals := r.1 }

/-! ## The UI boundary for simulation parameters
(`quant_options_alpha_analyzer.py:869-894` and `947-951`).

There is no validation code in `run_simulation`: the parameters come from
`QDoubleSpinBox` widgets whose `setRange` calls make the widget hold only
values inside the range (out-of-range input is silently clamped, no error
is raised or displayed). -/

/-- A `QDoubleSpinBox` with `setRange lo hi`: its `value()` is the
requested value clamped into `[lo, hi]`. -/
def spinClamp (lo hi x : ℚ) : ℚ := max lo (min hi x)

/-- The raw values a user tries to put into the four parameter widgets. -/
structure RawSimParams where
  trades : ℚ
  price : ℚ
  vol : ℚ
  holding : ℚ
  deriving Repr, DecidableEq

/-- The `SimConfig` that `run_simulation` actually reads
(`quant_options_alpha_analyzer.py:947-951`), given raw user input:
`sim_trades` has range [1,1000], `sim_price` [1,10000], `sim_vol` [1,200]
(divided by 100), `sim_holding` [1,5]; `int(...)` truncates (equals `floor`
on these positive ranges). -/
def configFromUI (raw : RawSimParams) (useRealistic : Bool) : SimConfig :=
  { numSims := ⌊spinClamp 1 1000 raw.trades⌋.toNat
    stockPrice := spinClamp 1 10000 raw.price
    volatility := spinClamp 1 200 raw.vol / 100
    holdingPeriod := ⌊spinClamp 1 5 raw.holding⌋.toNat
    useRealistic := useRealistic }

/-- A valid §3 `SimulationConfig`. -/
def SimConfig.valid (cfg : SimConfig) : Prop :=
  1 ≤ cfg.numSims ∧ 0 < cfg.stockPrice ∧ 0 < cfg.volatility ∧
    1 ≤ cfg.holdingPeriod

instance (cfg : SimConfig) : Decidable cfg.valid := by
  unfold SimConfig.valid
  infer_instance

/-- The all-zero random source (used by the §8 forced-draw scenario). -/
def zeroDraws : ℕ → ℚ := fun _ => 0

/-- A small valid configuration: 3 paths, price 100, 30% volatility,
2-day holding period, realistic execution. -/
def demoConfig : SimConfig :=
  { numSims := 3, stockPrice := 100, volatility := 3/10,
    holdingPeriod := 2, useRealistic := true }

/-- A single-path, single-day configuration with realistic execution. -/
def winConfig : SimConfig :=
  { numSims := 1, stockPrice := 100, volatility := 3/10,
    holdingPeriod := 1, useRealistic := true }

/-! ## Spec-side closed forms of the day loop

The spec (§4.2/§4.3) describes the factor totals as sums "over all paths
and days" of per-day changes.  The following definitions restate one day's
changes as closed-form functions of the day index, for comparison with the
accumulator-threading source loop. -/

/-- The underlying price at the start of day `d` of one path (price `start`
on day 0, each day moved by `price * dailyVol * Z`). -/
def pathPrice (dailyVol : ℚ) (draws : ℕ → ℚ) (base : ℕ) (start : ℚ) :
    ℕ → ℚ
  | 0 => start
  | d + 1 =>
      pathPrice dailyVol draws base start d +
        pathPrice dailyVol draws base start d * dailyVol * draws (base + 2*d)

/-- Day `d`'s `price_change = current_price * daily_vol * Z`. -/
def dayPriceChange (dailyVol : ℚ) (draws : ℕ → ℚ) (base : ℕ) (start : ℚ)
    (d : ℕ) : ℚ :=
  pathPrice dailyVol draws base start d * dailyVol * draws (base + 2*d)

/-- Day `d`'s `delta_change = delta * price_change`. -/
def dayDeltaChange (c : ContractData) (dailyVol : ℚ) (draws : ℕ → ℚ)
    (base : ℕ) (start : ℚ) (d : ℕ) : ℚ :=
  c.delta * dayPriceChange dailyVol draws base start d

/-- Day `d`'s `gamma_change = 0.5 * gamma * price_change**2`. -/
def dayGammaChange (c : ContractData) (dailyVol : ℚ) (draws : ℕ → ℚ)
    (base : ℕ) (start : ℚ) (d : ℕ) : ℚ :=
  1/2 * c.gamma * dayPriceChange dailyVol draws base start d ^ 2

/-- `theta_change = theta / 252`, the same every day. -/
def dayThetaChange (c : ContractData) : ℚ := c.theta / 252

/-- Day `d`'s `iv_change = 0.01 * Z' - 0.005 * np.sign(price_change)`. -/
def dayIvChange (dailyVol : ℚ) (draws : ℕ → ℚ) (base : ℕ) (start : ℚ)
    (d : ℕ) : ℚ :=
  1/100 * draws (base + 2*d + 1) -
    5/1000 * pysign (dayPriceChange dailyVol draws base start d)

/-- Day `d`'s `vega_change = vega * iv_change * 100`. -/
def dayVegaChange (c : ContractData) (dailyVol : ℚ) (draws : ℕ → ℚ)
    (base : ℕ) (start : ℚ) (d : ℕ) : ℚ :=
  c.vega * dayIvChange dailyVol draws base start d * 100

/-- Day `d`'s whole option-value increment. -/
def dayTotalChange (c : ContractData) (dailyVol : ℚ) (draws : ℕ → ℚ)
    (base : ℕ) (start : ℚ) (d : ℕ) : ℚ :=
  dayDeltaChange c dailyVol draws base start d +
    dayGammaChange c dailyVol draws base start d +
    dayThetaChange c +
    dayVegaChange c dailyVol draws base start d

/-- One path's unsigned per-Greek totals, as the spec describes them: the
sum over the path's days of the per-day change magnitudes. -/
def pathAbsDelta (c : ContractData) (cfg : SimConfig) (s : ℚ)
    (draws : ℕ → ℚ) (base : ℕ) : ℚ :=
  ∑ d in Finset.range cfg.holdingPeriod,
    |dayDeltaChange c (cfg.volatility / s) draws base cfg.stockPrice d|

/-- Gamma version of `pathAbsDelta`. -/
def pathAbsGamma (c : ContractData) (cfg : SimConfig) (s : ℚ)
    (draws : ℕ → ℚ) (base : ℕ) : ℚ :=
  ∑ d in Finset.range cfg.holdingPeriod,
    |dayGammaChange c (cfg.volatility / s) draws base cfg.stockPrice d|

/-- Theta version of `pathAbsDelta`. -/
def pathAbsTheta (c : ContractData) (cfg : SimConfig) : ℚ :=
  ∑ _d in Finset.range cfg.holdingPeriod, |dayThetaChange c|

/-- Vega version of `pathAbsDelta`. -/
def pathAbsVega (c : ContractData) (cfg : SimConfig) (s : ℚ)
    (draws : ℕ → ℚ) (base : ℕ) : ℚ :=
  ∑ d in Finset.range cfg.holdingPeriod,
    |dayVegaChange c (cfg.volatility / s) draws base cfg.stockPrice d|

/-! ## Helper lemmas -/

theorem pathPrice_shift (dv : ℚ) (draws : ℕ → ℚ) (base : ℕ) (start : ℚ) :
    ∀ d, pathPrice dv draws (base + 2) (start + start * dv * draws base) d =
      pathPrice dv draws base start (d + 1)
  | 0 => by simp [pathPrice]
  | d + 1 => by
      rw [pathPrice, pathPrice_shift dv draws base start d,
        show base + 2 + 2*d = base + 2*(d+1) by ring]
      simp [pathPrice]

theorem dayPriceChange_shift (dv : ℚ) (draws : ℕ → ℚ) (base : ℕ)
    (start : ℚ) (d : ℕ) :
    dayPriceChange dv draws (base + 2) (start + start * dv * draws base) d =
      dayPriceChange dv draws base start (d + 1) := by
  unfold dayPriceChange
  rw [pathPrice_shift, show base + 2 + 2*d = base + 2*(d+1) by ring]

theorem dayDeltaChange_shift (c : ContractData) (dv : ℚ) (draws : ℕ → ℚ)
    (base : ℕ) (start : ℚ) (d : ℕ) :
    dayDeltaChange c dv draws (base + 2) (start + start * dv * draws base) d
      = dayDeltaChange c dv draws base start (d + 1) := by
  unfold dayDeltaChange
  rw [dayPriceChange_shift]

theorem dayGammaChange_shift (c : ContractData) (dv : ℚ) (draws : ℕ → ℚ)
    (base : ℕ) (start : ℚ) (d : ℕ) :
    dayGammaChange c dv draws (base + 2) (start + start * dv * draws base) d
      = dayGammaChange c dv draws base start (d + 1) := by
  unfold dayGammaChange
  rw [dayPriceChange_shift]

theorem dayIvChange_shift (dv : ℚ) (draws : ℕ → ℚ) (base : ℕ)
    (start : ℚ) (d : ℕ) :
    dayIvChange dv draws (base + 2) (start + start * dv * draws base) d
      = dayIvChange dv draws base start (d + 1) := by
  unfold dayIvChange
  rw [dayPriceChange_shift, show base + 2 + 2*d + 1 = base + 2*(d+1) + 1 by ring]

theorem dayVegaChange_shift (c : ContractData) (dv : ℚ) (draws : ℕ → ℚ)
    (base : ℕ) (start : ℚ) (d : ℕ) :
    dayVegaChange c dv draws (base + 2) (start + start * dv * draws base) d
      = dayVegaChange c dv draws base start (d + 1) := by
  unfold dayVegaChange
  rw [dayIvChange_shift]

theorem dayTotalChange_shift (c : ContractData) (dv : ℚ) (draws : ℕ → ℚ)
    (base : ℕ) (start : ℚ) (d : ℕ) :
    dayTotalChange c dv draws (base + 2) (start + start * dv * draws base) d
      = dayTotalChange c dv draws base start (d + 1) := by
  unfold dayTotalChange
  rw [dayDeltaChange_shift, dayGammaChange_shift, dayVegaChange_shift]

/-- Closed form of the day loop: after `days` days the state holds the
closed-form price and each accumulator has gained the sum of its per-day
(signed or unsigned) changes. -/
theorem runDays_spec (c : ContractData) (dv : ℚ) (draws : ℕ → ℚ) :
    ∀ (days base : ℕ) (st : LoopState),
    runDays c dv draws base days st =
      { price := pathPrice dv draws base st.price days
        optionValue := st.optionValue +
          ∑ d in Finset.range days, dayTotalChange c dv draws base st.price d
        sD := st.sD +
          ∑ d in Finset.range days, dayDeltaChange c dv draws base st.price d
        sG := st.sG +
          ∑ d in Finset.range days, dayGammaChange c dv draws base st.price d
        sT := st.sT + ∑ _d in Finset.range days, dayThetaChange c
        sV := st.sV +
          ∑ d in Finset.range days, dayVegaChange c dv draws base st.price d
        uD := st.uD + ∑ d in Finset.range days,
          |dayDeltaChange c dv draws base st.price d|
        uG := st.uG + ∑ d in Finset.range days,
          |dayGammaChange c dv draws base st.price d|
        uT := st.uT + ∑ _d in Finset.range days, |dayThetaChange c|
        uV := st.uV + ∑ d in Finset.range days,
          |dayVegaChange c dv draws base st.price d| }
  | 0, base, st => by simp [runDays, pathPrice]
  | n + 1, base, st => by
      rw [runDays, runDays_spec c dv draws n (base + 2)
        (dayStep c dv (draws base) (draws (base + 1)) st)]
      simp only [dayStep, dayPriceChange_shift, dayDeltaChange_shift,
        dayGammaChange_shift, dayIvChange_shift, dayVegaChange_shift,
        dayTotalChange_shift, pathPrice_shift, Finset.sum_range_succ',
        LoopState.mk.injEq]
      repeat' apply And.intro
      all_goals try simp [dayTotalChange, dayDeltaChange, dayGammaChange,
        dayThetaChange, dayIvChange, dayVegaChange, dayPriceChange, pathPrice]
      all_goals try ring

/-- One path adds exactly its per-day change magnitudes to the unsigned
accumulators. -/
theorem runPath_totals (c : ContractData) (cfg : SimConfig) (s : ℚ)
    (draws : ℕ → ℚ) (base : ℕ) (u : FactorTotals) :
    (runPath c cfg s draws base u).1 =
      ⟨u.uDelta + pathAbsDelta c cfg s draws base,
       u.uGamma + pathAbsGamma c cfg s draws base,
       u.uTheta + pathAbsTheta c cfg,
       u.uVega + pathAbsVega c cfg s draws base⟩ := by
  simp only [runPath, pathInit, runDays_spec, pathAbsDelta, pathAbsGamma,
    pathAbsTheta, pathAbsVega]

/-- The path loop sums the per-path unsigned totals across paths. -/
theorem runSims_totals (c : ContractData) (cfg : SimConfig) (s : ℚ)
    (draws : ℕ → ℚ) :
    ∀ (n base : ℕ) (u : FactorTotals),
    (runSims c cfg s draws base n u).1 =
      ⟨u.uDelta + ∑ p in Finset.range n,
         pathAbsDelta c cfg s draws (base + 2 * cfg.holdingPeriod * p),
       u.uGamma + ∑ p in Finset.range n,
         pathAbsGamma c cfg s draws (base + 2 * cfg.holdingPeriod * p),
       u.uTheta + ∑ _p in Finset.range n, pathAbsTheta c cfg,
       u.uVega + ∑ p in Finset.range n,
         pathAbsVega c cfg s draws (base + 2 * cfg.holdingPeriod * p)⟩
  | 0, base, u => by simp [runSims]
  | n + 1, base, u => by
      have ih := runSims_totals c cfg s draws n (base + 2 * cfg.holdingPeriod)
      simp only [runSims, runPath_totals, ih]
      simp only [Finset.sum_range_succ', FactorTotals.mk.injEq,
        show ∀ p : ℕ, base + 2*cfg.holdingPeriod + 2*cfg.holdingPeriod*p
            = base + 2*cfg.holdingPeriod*(p+1) from fun p => by ring]
      repeat' apply And.intro
      all_goals try simp
      all_goals try ring

/-- The whole simulation's unsigned factor totals are the sums, over all
paths, of the per-day change magnitudes. -/
theorem simulateContract_totals (c : ContractData) (cfg : SimConfig)
    (s : ℚ) (draws : ℕ → ℚ) :
    (simulateContract c cfg s draws).1 =
      ⟨∑ p in Finset.range cfg.numSims,
         pathAbsDelta c cfg s draws (2 * cfg.holdingPeriod * p),
       ∑ p in Finset.range cfg.numSims,
         pathAbsGamma c cfg s draws (2 * cfg.holdingPeriod * p),
       ∑ _p in Finset.range cfg.numSims, pathAbsTheta c cfg,
       ∑ p in Finset.range cfg.numSims,
         pathAbsVega c cfg s draws (2 * cfg.holdingPeriod * p)⟩ := by
  simp [simulateContract, runSims_totals]

/-- First-maximum-wins characterization of
`max(factors, key=factors.get)` over the insertion order
Delta, Gamma, Theta, Vega. -/
theorem primary_factor_spec (d g t v : ℚ) :
    (primary_factor d g t v = Greek.Delta ↔ g ≤ d ∧ t ≤ d ∧ v ≤ d) ∧
    (primary_factor d g t v = Greek.Gamma ↔ d < g ∧ t ≤ g ∧ v ≤ g) ∧
    (primary_factor d g t v = Greek.Theta ↔ d < t ∧ g < t ∧ v ≤ t) ∧
    (primary_factor d g t v = Greek.Vega ↔ d < v ∧ g < v ∧ t < v) := by
  unfold primary_factor pymaxStep
  split_ifs <;> simp_all <;>
    (repeat' apply And.intro) <;> linarith

/-- The day loop reads only the draws at positions
`base … base + 2*days − 1`. -/
theorem runDays_congr (c : ContractData) (dv : ℚ) (d1 d2 : ℕ → ℚ) :
    ∀ (days base : ℕ) (st : LoopState),
    (∀ i, base ≤ i → i < base + 2 * days → d1 i = d2 i) →
    runDays c dv d1 base days st = runDays c dv d2 base days st
  | 0, _, _, _ => rfl
  | n + 1, base, st, h => by
      rw [runDays, runDays, h base (le_refl _) (by omega),
        h (base + 1) (by omega) (by omega)]
      exact runDays_congr c dv d1 d2 n (base + 2) _
        (fun i hi1 hi2 => h i (by omega) (by omega))

/-- The path loop reads only the draws at positions
`base … base + 2*holdingPeriod*n − 1`. -/
theorem runSims_congr (c : ContractData) (cfg : SimConfig) (s : ℚ)
    (d1 d2 : ℕ → ℚ) :
    ∀ (n base : ℕ) (u : FactorTotals),
    (∀ i, base ≤ i → i < base + 2 * cfg.holdingPeriod * n → d1 i = d2 i) →
    runSims c cfg s d1 base n u = runSims c cfg s d2 base n u
  | 0, _, _, _ => rfl
  | n + 1, base, u, h => by
      have hmul : 2 * cfg.holdingPeriod +
          2 * cfg.holdingPeriod * n = 2 * cfg.holdingPeriod * (n + 1) := by
        ring
      have hp : runPath c cfg s d1 base u = runPath c cfg s d2 base u := by
        unfold runPath
        rw [runDays_congr c (cfg.volatility / s) d1 d2 cfg.holdingPeriod base
          (pathInit c cfg u) (fun i hi1 hi2 => h i hi1 (by omega))]
      rw [runSims, runSims, hp,
        runSims_congr c cfg s d1 d2 n (base + 2 * cfg.holdingPeriod) _
          (fun i hi1 hi2 => h i (by omega) (by omega))]

/-- The path loop emits exactly one sample per iteration. -/
theorem runSims_length (c : ContractData) (cfg : SimConfig) (s : ℚ)
    (draws : ℕ → ℚ) :
    ∀ (n base : ℕ) (u : FactorTotals),
    (runSims c cfg s draws base n u).2.length = n
  | 0, _, _ => rfl
  | n + 1, base, u => by
      simp [runSims, runSims_length c cfg s draws n]

/-! ## Claim theorems -/

/-- C1: for every contract, the SAS formula returns
`(delta·gamma)/|theta|` when `|theta| > 0` and `0` otherwise, and on the
§8 concrete contract (delta 0.50, gamma 0.052, theta −0.070) it equals
`0.026/0.070 = 13/35 ≈ 0.3714`. -/
theorem sas_formula_correct :
    (∀ (s : ℚ) (c : ContractData),
      scoreValue s 0 c =
        if 0 < |c.theta| then c.delta * c.gamma / |c.theta| else 0) ∧
    (∀ s : ℚ, scoreValue s 0 exampleContract = (1/2 * (52/1000)) / (70/1000)) ∧
    (∀ s : ℚ, scoreValue s 0 exampleContract = 13/35) ∧
    (∀ s : ℚ, |scoreValue s 0 exampleContract - 3714/10000| < 1/10000) := by
  have hgen : ∀ (s : ℚ) (c : ContractData),
      scoreValue s 0 c =
        if 0 < |c.theta| then c.delta * c.gamma / |c.theta| else 0 := by
    intro s c
    simp [scoreValue, calculate_results]
  have habs : |(7 : ℚ)/100| = 7/100 := abs_of_pos (by norm_num)
  have habs2 : |(1 : ℚ)/35000| = 1/35000 := abs_of_pos (by norm_num)
  refine ⟨hgen, fun s => ?_, fun s => ?_, fun s => ?_⟩ <;>
    rw [hgen s exampleContract] <;> norm_num [exampleContract, habs, habs2]

/-- C2: for every contract, RA-SAS returns
`(delta·gamma)/(|theta|+spread+slippage)` when the denominator is positive
and `0` otherwise, and whenever the denominator is `≤ 0`, RA-SAS is `0` and
Expected Return reduces exactly to `(rv−iv)·vega`. -/
theorem ra_sas_formula_correct :
    (∀ (s : ℚ) (c : ContractData),
      scoreValue s 1 c =
        if 0 < |c.theta| + (c.ask - c.bid) + c.slippage
        then c.delta * c.gamma / (|c.theta| + (c.ask - c.bid) + c.slippage)
        else 0) ∧
    (∀ (s : ℚ) (c : ContractData),
      |c.theta| + (c.ask - c.bid) + c.slippage ≤ 0 →
        scoreValue s 1 c = 0 ∧
        scoreValue s 3 c = (rvValue s c - c.iv / 100) * c.vega) := by
  constructor
  · intro s c
    simp [scoreValue, calculate_results]
  · intro s c h
    constructor <;>
      simp [scoreValue, calculate_results, not_lt.mpr h]

/-- Witness for C2 at the degenerate contract (denominator −1 ≤ 0). -/
theorem ra_sas_formula_correct_witness :
    |degenerateContract.theta| +
      (degenerateContract.ask - degenerateContract.bid) +
      degenerateContract.slippage ≤ 0 ∧
    scoreValue 16 1 degenerateContract = 0 ∧
    scoreValue 16 3 degenerateContract =
      (rvValue 16 degenerateContract - degenerateContract.iv / 100) *
        degenerateContract.vega :=
  ⟨by norm_num [degenerateContract, exampleContract],
   (ra_sas_formula_correct.2 16 degenerateContract
     (by norm_num [degenerateContract, exampleContract])).1,
   (ra_sas_formula_correct.2 16 degenerateContract
     (by norm_num [degenerateContract, exampleContract])).2⟩

/-- C3: for every contract, TAS equals `SAS + (rv−iv)·vega` with
`rv = (ATR/underlying)·√252` when `underlying > 0` and `0` otherwise and
`iv = impliedVolatilityPct/100`; with `theta = 0`, SAS is `0` and TAS
reduces exactly to `(rv−iv)·vega`. -/
theorem tas_formula_correct :
    (∀ (s : ℚ) (c : ContractData),
      scoreValue s 2 c =
        (if 0 < |c.theta| then c.delta * c.gamma / |c.theta| else 0) +
          ((if 0 < c.underlying then c.atr / c.underlying * s else 0) -
            c.iv / 100) * c.vega) ∧
    (∀ (s : ℚ) (c : ContractData), c.theta = 0 →
      (if 0 < |c.theta| then c.delta * c.gamma / |c.theta| else 0) = 0 ∧
      scoreValue s 2 c = (rvValue s c - c.iv / 100) * c.vega) := by
  constructor
  · intro s c
    simp [scoreValue, calculate_results, rvValue]
  · intro s c h
    constructor <;> simp [scoreValue, calculate_results, h]

/-- Witness for C3 at the zero-theta contract. -/
theorem tas_formula_correct_witness :
    breakEvenContract.theta = 0 ∧
    scoreValue 16 2 breakEvenContract =
      (rvValue 16 breakEvenContract - breakEvenContract.iv / 100) *
        breakEvenContract.vega :=
  ⟨rfl, (tas_formula_correct.2 16 breakEvenContract rfl).2⟩

/-- C7 counterexample: scoring is not side-effect free — it writes the
`"rv"` entry into the input record, so the record after the call differs
from the record before it. -/
theorem score_mutates_input :
    (calculate_results 16 0 exampleContract).1 ≠ exampleContract := by
  intro h
  have h1 := congrArg ContractData.rv h
  simp [calculate_results, exampleContract] at h1

/-- C7 amended: scoring leaves the eleven §3 input fields of the contract
record unchanged and returns the formula label and value, but it writes the
derived realized-volatility annotation `rv·100` into the record's `"rv"`
entry. -/
theorem score_preserves_input_fields (s : ℚ) (idx : ℕ) (c : ContractData) :
    (calculate_results s idx c).1.strike = c.strike ∧
    (calculate_results s idx c).1.delta = c.delta ∧
    (calculate_results s idx c).1.gamma = c.gamma ∧
    (calculate_results s idx c).1.theta = c.theta ∧
    (calculate_results s idx c).1.vega = c.vega ∧
    (calculate_results s idx c).1.bid = c.bid ∧
    (calculate_results s idx c).1.ask = c.ask ∧
    (calculate_results s idx c).1.slippage = c.slippage ∧
    (calculate_results s idx c).1.underlying = c.underlying ∧
    (calculate_results s idx c).1.atr = c.atr ∧
    (calculate_results s idx c).1.iv = c.iv ∧
    (calculate_results s idx c).1.rv = some (rvValue s c * 100) := by
  unfold calculate_results
  split_ifs <;> simp

/-- C4: with both normal draws forced to 0, a day-step changes nothing but
theta (`priceChange = deltaChange = gammaChange = ivChange = vegaChange =
0`, `thetaChange = theta/252`); a 1-path 1-day simulation without realistic
execution therefore returns exactly `theta/252` (`−0.070/252` for the §8
contract's theta). -/
theorem forced_zero_draw_path (c : ContractData) (sp vol s : ℚ)
    (st : LoopState) :
    dayStep c (vol / s) 0 0 st =
      { st with optionValue := st.optionValue + c.theta / 252,
                sT := st.sT + c.theta / 252,
                uT := st.uT + |c.theta / 252| } ∧
    (simulateContract c ⟨1, sp, vol, 1, false⟩ s zeroDraws).2 =
      [⟨c.theta / 252, 0, 0, c.theta / 252, 0⟩] ∧
    (simulateContract { c with theta := -70/1000 } ⟨1, sp, vol, 1, false⟩ s
        zeroDraws).2 =
      [⟨(-70/1000 : ℚ) / 252, 0, 0, (-70/1000 : ℚ) / 252, 0⟩] := by
  refine ⟨?_, ?_, ?_⟩ <;>
    simp [dayStep, simulateContract, runSims, runPath, runDays, pathInit,
      initialValue, zeroDraws, pysign]

/-- C5: a non-cancelled run with a valid configuration produces exactly
`pathCount` PathSamples for the contract. -/
theorem path_count_exact (c : ContractData) (cfg : SimConfig) (s : ℚ)
    (draws : ℕ → ℚ) (_h1 : 1 ≤ cfg.numSims) (_h2 : 1 ≤ cfg.holdingPeriod) :
    (simulateContract c cfg s draws).2.length = cfg.numSims :=
  runSims_length c cfg s draws cfg.numSims 0 ⟨0, 0, 0, 0⟩

/-- Witness for C5 at a 3-path, 2-day configuration. -/
theorem path_count_exact_witness :
    1 ≤ demoConfig.numSims ∧ 1 ≤ demoConfig.holdingPeriod ∧
    (simulateContract exampleContract demoConfig 16 zeroDraws).2.length = 3 :=
  ⟨by decide, by decide,
   path_count_exact exampleContract demoConfig 16 zeroDraws
     (by decide) (by decide)⟩

/-- C6: the simulation's randomness is an injected draw stream and the run
reads only the `2·holdingPeriod·pathCount` draws it consumes: two runs with
identical contract and config whose streams agree on those draws produce
bit-for-bit identical factor totals and PathSample sequences.  In
particular a fixed-seed stream makes runs reproducible. -/
theorem sim_deterministic (c : ContractData) (cfg : SimConfig) (s : ℚ)
    (d1 d2 : ℕ → ℚ)
    (h : ∀ i, i < 2 * cfg.holdingPeriod * cfg.numSims → d1 i = d2 i) :
    simulateContract c cfg s d1 = simulateContract c cfg s d2 :=
  runSims_congr c cfg s d1 d2 cfg.numSims 0 ⟨0, 0, 0, 0⟩
    (fun i _ hi2 => h i (by omega))

/-- Witness for C6: the all-zero stream and a stream that differs from it
from position 4 onwards agree on the 4 draws a 2-path 1-day run reads, so
the two runs coincide. -/
theorem sim_deterministic_witness :
    simulateContract exampleContract ⟨2, 100, 3/10, 1, true⟩ 16 zeroDraws =
      simulateContract exampleContract ⟨2, 100, 3/10, 1, true⟩ 16
        (fun i => if i < 4 then 0 else 7) :=
  sim_deterministic exampleContract ⟨2, 100, 3/10, 1, true⟩ 16 zeroDraws
    (fun i => if i < 4 then 0 else 7)
    (fun i hi => by
      have h4 : i < 4 := by simpa using hi
      simp [zeroDraws, h4])

/-- C8: each per-factor total is the sum, over all paths and all days, of
that Greek's unsigned per-day change, and `dominantFactor` is the Greek
with the largest unsigned total, first maximum winning under the fixed
precedence order Delta > Gamma > Theta > Vega. -/
theorem factor_attribution_correct (c : ContractData) (cfg : SimConfig)
    (s : ℚ) (draws : ℕ → ℚ) (idx : ℕ) :
    ((run_simulation c cfg s draws idx).totals.uDelta =
      ∑ p in Finset.range cfg.numSims, ∑ d in Finset.range cfg.holdingPeriod,
        |dayDeltaChange c (cfg.volatility / s) draws
          (2 * cfg.holdingPeriod * p) cfg.stockPrice d|) ∧
    ((run_simulation c cfg s draws idx).totals.uGamma =
      ∑ p in Finset.range cfg.numSims, ∑ d in Finset.range cfg.holdingPeriod,
        |dayGammaChange c (cfg.volatility / s) draws
          (2 * cfg.holdingPeriod * p) cfg.stockPrice d|) ∧
    ((run_simulation c cfg s draws idx).totals.uTheta =
      ∑ _p in Finset.range cfg.numSims,
        ∑ _d in Finset.range cfg.holdingPeriod, |dayThetaChange c|) ∧
    ((run_simulation c cfg s draws idx).totals.uVega =
      ∑ p in Finset.range cfg.numSims, ∑ d in Finset.range cfg.holdingPeriod,
        |dayVegaChange c (cfg.volatility / s) draws
          (2 * cfg.holdingPeriod * p) cfg.stockPrice d|) ∧
    ((run_simulation c cfg s draws idx).primaryFactor =
      primary_factor (run_simulation c cfg s draws idx).totals.uDelta
        (run_simulation c cfg s draws idx).totals.uGamma
        (run_simulation c cfg s draws idx).totals.uTheta
        (run_simulation c cfg s draws idx).totals.uVega) ∧
    ((run_simulation c cfg s draws idx).primaryFactor = Greek.Delta ↔
      (run_simulation c cfg s draws idx).totals.uGamma ≤
          (run_simulation c cfg s draws idx).totals.uDelta ∧
        (run_simulation c cfg s draws idx).totals.uTheta ≤
          (run_simulation c cfg s draws idx).totals.uDelta ∧
        (run_simulation c cfg s draws idx).totals.uVega ≤
          (run_simulation c cfg s draws idx).totals.uDelta) ∧
    ((run_simulation c cfg s draws idx).primaryFactor = Greek.Gamma ↔
      (run_simulation c cfg s draws idx).totals.uDelta <
          (run_simulation c cfg s draws idx).totals.uGamma ∧
        (run_simulation c cfg s draws idx).totals.uTheta ≤
          (run_simulation c cfg s draws idx).totals.uGamma ∧
        (run_simulation c cfg s draws idx).totals.uVega ≤
          (run_simulation c cfg s draws idx).totals.uGamma) ∧
    ((run_simulation c cfg s draws idx).primaryFactor = Greek.Theta ↔
      (run_simulation c cfg s draws idx).totals.uDelta <
          (run_simulation c cfg s draws idx).totals.uTheta ∧
        (run_simulation c cfg s draws idx).totals.uGamma <
          (run_simulation c cfg s draws idx).totals.uTheta ∧
        (run_simulation c cfg s draws idx).totals.uVega ≤
          (run_simulation c cfg s draws idx).totals.uTheta) ∧
    ((run_simulation c cfg s draws idx).primaryFactor = Greek.Vega ↔
      (run_simulation c cfg s draws idx).totals.uDelta <
          (run_simulation c cfg s draws idx).totals.uVega ∧
        (run_simulation c cfg s draws idx).totals.uGamma <
          (run_simulation c cfg s draws idx).totals.uVega ∧
        (run_simulation c cfg s draws idx).totals.uTheta <
          (run_simulation c cfg s draws idx).totals.uVega) := by
  have ht := simulateContract_totals c cfg s draws
  have hC := primary_factor_spec (simulateContract c cfg s draws).1.uDelta
    (simulateContract c cfg s draws).1.uGamma
    (simulateContract c cfg s draws).1.uTheta
    (simulateContract c cfg s draws).1.uVega
  refine ⟨?_, ?_, ?_, ?_, rfl, hC.1, hC.2.1, hC.2.2.1, hC.2.2.2⟩ <;>
    · rw [show (run_simulation c cfg s draws idx).totals =
          (simulateContract c cfg s draws).1 from rfl, ht]
      simp [pathAbsDelta, pathAbsGamma, pathAbsTheta, pathAbsVega]

/-- C9 counterexample: a request with invalid `holdingPeriodDays = 0` is
not rejected and no configuration error is surfaced: the spin box silently
clamps the value to 1 and a full 10-path simulation is performed. -/
theorem invalid_config_not_rejected :
    (configFromUI ⟨10, 100, 30, 0⟩ false).holdingPeriod = 1 ∧
    (simulateContract exampleContract (configFromUI ⟨10, 100, 30, 0⟩ false)
      16 zeroDraws).2.length = 10 := by
  have hcfg : configFromUI ⟨10, 100, 30, 0⟩ false =
      ⟨10, 100, 30/100, 1, false⟩ := by
    norm_num [configFromUI, spinClamp, min_def, max_def]
    decide
  rw [hcfg]
  exact ⟨rfl,
    runSims_length exampleContract ⟨10, 100, 30/100, 1, false⟩ 16 zeroDraws
      10 0 ⟨0, 0, 0, 0⟩⟩

/-- C9 amended: invalid configurations cannot reach the simulator — each
parameter widget clamps its value into its valid range (pathCount into
[1,1000], price into [1,10000], volatility% into [1,200], days into
[1,5]) — so every configuration the simulation reads is valid; but the
clamping is silent, no error is raised. -/
theorem ui_bounds_guarantee_valid_config (raw : RawSimParams) (b : Bool) :
    (configFromUI raw b).valid := by
  simp only [configFromUI, SimConfig.valid, spinClamp]
  refine ⟨?_, ?_, ?_, ?_⟩
  · have h1 : (1 : ℚ) ≤ max 1 (min 1000 raw.trades) := le_max_left _ _
    have h2 : (1 : ℤ) ≤ ⌊max 1 (min 1000 raw.trades)⌋ := by
      rw [Int.le_floor]
      exact_mod_cast h1
    omega
  · exact lt_of_lt_of_le zero_lt_one (le_max_left _ _)
  · exact div_pos (lt_of_lt_of_le zero_lt_one (le_max_left _ _)) (by norm_num)
  · have h1 : (1 : ℚ) ≤ max 1 (min 5 raw.holding) := le_max_left _ _
    have h2 : (1 : ℤ) ≤ ⌊max 1 (min 5 raw.holding)⌋ := by
      rw [Int.le_floor]
      exact_mod_cast h1
    omega

/-- C10: with realistic execution and positive slippage, a path whose
post-loop option value equals the initial mid-price takes the
buying-back branch (the profit test is strict), so slippage is added to
the exit value, `totalReturn = slippage > 0`, and the break-even path is
counted as a win. -/
theorem breakeven_counts_as_win (c : ContractData) (cfg : SimConfig)
    (s : ℚ) (draws : ℕ → ℚ) (base : ℕ) (u : FactorTotals)
    (hreal : cfg.useRealistic = true) (hslip : 0 < c.slippage)
    (hbe : (runDays c (cfg.volatility / s) draws base cfg.holdingPeriod
        (pathInit c cfg u)).optionValue = initialValue c) :
    (runPath c cfg s draws base u).2.totalReturn = c.slippage ∧
    isWin (runPath c cfg s draws base u).2 = true := by
  unfold runPath
  simp only [hreal, hbe, lt_self_iff_false, if_false, if_true, isWin]
  constructor
  · ring
  · rw [show initialValue c + c.slippage - initialValue c = c.slippage
      from by ring]
    simp [hslip]

/-- Witness for C10: the zero-theta contract with all-zero draws exits one
1-day path exactly at the mid-price; its return is `+slippage` and it is
counted as a win. -/
theorem breakeven_counts_as_win_witness :
    winConfig.useRealistic = true ∧ 0 < breakEvenContract.slippage ∧
    (runDays breakEvenContract (winConfig.volatility / 16) zeroDraws 0
        winConfig.holdingPeriod
        (pathInit breakEvenContract winConfig ⟨0, 0, 0, 0⟩)).optionValue =
      initialValue breakEvenContract ∧
    (runPath breakEvenContract winConfig 16 zeroDraws 0
      ⟨0, 0, 0, 0⟩).2.totalReturn = breakEvenContract.slippage ∧
    isWin (runPath breakEvenContract winConfig 16 zeroDraws 0
      ⟨0, 0, 0, 0⟩).2 = true := by
  have hreal : winConfig.useRealistic = true := rfl
  have hslip : (0 : ℚ) < breakEvenContract.slippage := by
    norm_num [breakEvenContract, exampleContract]
  have hbe : (runDays breakEvenContract (winConfig.volatility / 16) zeroDraws
      0 winConfig.holdingPeriod
      (pathInit breakEvenContract winConfig ⟨0, 0, 0, 0⟩)).optionValue =
      initialValue breakEvenContract := by
    norm_num [runDays, dayStep, pathInit, initialValue, winConfig, zeroDraws,
      pysign, breakEvenContract, exampleContract]
  exact ⟨hreal, hslip, hbe,
    (breakeven_counts_as_win breakEvenContract winConfig 16 zeroDraws 0
      ⟨0, 0, 0, 0⟩ hreal hslip hbe).1,
    (breakeven_counts_as_win breakEvenContract winConfig 16 zeroDraws 0
      ⟨0, 0, 0, 0⟩ hreal hslip hbe).2⟩

end OptionsAlpha
